import Mathlib

set_option maxRecDepth 8000

/-!
Shallow embedding of the qobuz-dl naming-resolution and download-orchestration
engine (`qobuz_dl/utils.py`, `qobuz_dl/downloader.py`, `qobuz_dl/db.py`,
`qobuz_dl/metadata.py`).

Python strings are modelled as `List Char`; the small set of external,
out-of-repository operations (the `pathvalidate` sanitizers, Unicode NFC
normalization and the regular-expression cleanup pipeline inside
`clean_filename`) are abstracted as function parameters bundled in an
`Externals` record, since none of the verified claims depend on their
behaviour beyond being string transformations.  Everything else is translated
statement by statement from the Python source.
-/

namespace QobuzDl

/-- Python strings as character lists. -/
abbrev PyStr := List Char

/-- Python `str.lower` restricted to the character-wise (ASCII) case fold,
which is all the inputs under consideration exercise. -/
def pyLower (s : PyStr) : PyStr := s.map Char.toLower

/-- The whitespace characters removed by a bare Python `str.strip()`. -/
def isPySpace (c : Char) : Bool :=
  c = ' ' || c = '\t' || c = '\n' || c = '\r' || c = '\x0b' || c = '\x0c'

/-- Python `s.strip(chars)`: drop leading and trailing characters satisfying `p`. -/
def pyStrip (p : Char → Bool) (s : PyStr) : PyStr :=
  ((s.dropWhile p).reverse.dropWhile p).reverse

/-- `utils.invalid_chars_to_fullwidth`: the `invalid_to_fullwidth` replacement
table, in source order. -/
def invalid_to_fullwidth : List (Char × Char) :=
  [('/', '／'), ('\\', '＼'), (':', '：'), ('*', '＊'), ('?', '？'),
   ('"', '＂'), ('<', '＜'), ('>', '＞'), ('|', '｜')]

/-- Python `s.replace(old, new)` for a single-character pattern and
single-character replacement is a character-wise map. -/
def pyReplaceChar (old new : Char) (s : PyStr) : PyStr :=
  s.map (fun c => if c = old then new else c)

/-- `utils.invalid_chars_to_fullwidth`: sequentially applies
`filename.replace(invalid_char, fullwidth_char)` for every table entry. -/
def invalid_chars_to_fullwidth (s : PyStr) : PyStr :=
  invalid_to_fullwidth.foldl (fun acc p => pyReplaceChar p.1 p.2 acc) s

/-- The nine filesystem-illegal characters the sanitizer must eliminate. -/
def invalidChars : List Char := ['/', '\\', ':', '*', '?', '"', '<', '>', '|']

/-- The character-level action of `invalid_chars_to_fullwidth` (the nine
sequential replacements collapse to one total map, because no replacement
produces a character that a later replacement rewrites). -/
def toSafeChar (c : Char) : Char :=
  if c = '/' then '／' else if c = '\\' then '＼' else if c = ':' then '：'
  else if c = '*' then '＊' else if c = '?' then '？' else if c = '"' then '＂'
  else if c = '<' then '＜' else if c = '>' then '＞' else if c = '|' then '｜'
  else c

/-- External, out-of-repository string transformations used by the engine.
Each field stands for one concrete external function; all theorems below are
universally quantified over them. -/
structure Externals where
  /-- `unicodedata.normalize('NFC', s)` (Python standard library). -/
  nfc : PyStr → PyStr
  /-- The `re.sub` cleanup pipeline inside `utils.clean_filename` (separator
  merging, empty-bracket stripping, whitespace collapsing) — Python `re`. -/
  regexClean : PyStr → PyStr
  /-- `pathvalidate.sanitize_filename(s, replacement_text="_")`. -/
  sanitize_filename : PyStr → PyStr
  /-- `pathvalidate.sanitize_filepath(s, replacement_text="_")`. -/
  sanitize_filepath : PyStr → PyStr

/-- `utils.clean_filename`: NFC-normalize, run the regex cleanup pipeline,
then `filename.strip().strip(".").strip()`, and finally map the illegal
characters to their full-width counterparts (the outermost operation in the
source's return expression). -/
def clean_filename (ext : Externals) (s : PyStr) : PyStr :=
  invalid_chars_to_fullwidth
    (pyStrip isPySpace (pyStrip (· = '.') (pyStrip isPySpace
      (ext.regexClean (ext.nfc s)))))

/-- Identity instantiation of the external transformations: on the plain
ASCII inputs used by the concrete witnesses below (no illegal characters, no
separator runs, no empty bracket pairs, already NFC-normalized, no
leading/trailing whitespace), each of the four external functions computes
the identity, so this instantiation coincides with the real libraries there. -/
def idExternals : Externals := ⟨id, id, id, id⟩

/-! ### Python `str.format` on keyword attribute mappings

`downloader.py` renders naming templates with `fmt.format(**attr_dict)`.
The templates in play consist of literal text and plain named replacement
fields `\x7bname\x7d` (no conversion/format specs, no escaped braces), so the
interpreter below covers exactly that fragment: a missing key raises
`KeyError`, a stray or unterminated brace raises `ValueError`. -/

/-- The two exception classes that template rendering can raise and that the
resolver's `except (KeyError, ValueError)` clauses distinguish. -/
inductive PyFmtErr where
  | keyError
  | valueError
  deriving DecidableEq, Repr

deriving instance DecidableEq for Except

/-- A Python keyword-argument dictionary of string values. -/
abbrev AttrMap := List (PyStr × PyStr)

/-- Interpreter for `fmt.format(**attr)`.  The first argument is `none` in
literal text and `some acc` while scanning a replacement-field name. -/
def pyFormatAux (attr : AttrMap) : Option PyStr → PyStr → Except PyFmtErr PyStr
  | none, [] => .ok []
  | some _, [] => .error .valueError
  | none, c :: rest =>
    if c = '\x7b' then pyFormatAux attr (some []) rest
    else if c = '\x7d' then .error .valueError
    else (pyFormatAux attr none rest).map (c :: ·)
  | some acc, c :: rest =>
    if c = '\x7d' then
      match attr.lookup acc with
      | none => .error .keyError
      | some v => (pyFormatAux attr none rest).map (v ++ ·)
    else pyFormatAux attr (some (acc ++ [c])) rest

/-- `fmt.format(**attr)`. -/
def pyFormat (attr : AttrMap) (fmt : PyStr) : Except PyFmtErr PyStr :=
  pyFormatAux attr none fmt

/-- `os.path.join(a, b)` on a POSIX system. -/
def pyJoin (a b : PyStr) : PyStr :=
  if b.head? = some '/' then b
  else if a = [] || a.getLast? = some '/' then a ++ b
  else a ++ '/' :: b

/-- `os.path.join(*parts)` for a non-empty list of parts. -/
def pyJoinList : List PyStr → PyStr
  | [] => []
  | p :: ps => ps.foldl pyJoin p

/-- Python `s.split(sep)` for a single-character separator. -/
def splitOnChar (sep : Char) : PyStr → List PyStr
  | [] => [[]]
  | c :: rest =>
    let r := splitOnChar sep rest
    if c = sep then [] :: r
    else
      match r with
      | [] => [[c]]
      | h :: t => (c :: h) :: t

/-! ### Constants (`qobuz_dl/constants.py` and `downloader.py`) -/

/-- `constants.DEFAULT_FOLDER`. -/
def DEFAULT_FOLDER : PyStr :=
  "{album_artist} - {album_title} ({year}) [{format} {bit_depth}]".toList

/-- `constants.DEFAULT_TRACK`. -/
def DEFAULT_TRACK : PyStr := "{track_number} - {track_title_base}".toList

/-- `constants.DEFAULT_MULTIPLE_DISC_TRACK`. -/
def DEFAULT_MULTIPLE_DISC_TRACK : PyStr :=
  "{disc_number}.{track_number} - {track_title_base}".toList

/-- `constants.OK_MAX_CHARACTER_LENGTH`: the fixed path-length budget. -/
def OK_MAX_CHARACTER_LENGTH : Nat := 180

/-- `downloader.DEFAULT_FORMATS[file_format]`: the dictionary of fixed
fallback templates, accessed in the source only for the keys `"MP3"` and
`"Unknown"`. -/
def DEFAULT_FORMATS (file_format : PyStr) : List PyStr :=
  if file_format = "MP3".toList then
    ["{album_artist} - {album_title} ({year}) [MP3]".toList,
     "{track_number} - {track_title}".toList]
  else
    ["{album_artist} - {album_title}".toList,
     "{track_number} - {track_title}".toList]

/-! ### `downloader._clean_format_str` -/

/-- `fs[:-4]` / `fs[:-5]` suffix trimming of a literal audio extension. -/
def dropAudioExt (fs : PyStr) : PyStr :=
  if ".mp3".toList.isSuffixOf fs then fs.take (fs.length - 4)
  else if ".flac".toList.isSuffixOf fs then fs.take (fs.length - 5)
  else fs

/-- Python substring containment `needle in hay`. -/
def pySubstr (needle hay : PyStr) : Bool :=
  hay.tails.any (fun t => needle.isPrefixOf t)

/-- The source condition `"bit_depth" in fs or "sampling_rate" in fs`
(Python substring containment). -/
def mentionsBitDepthOrSamplingRate (fs : PyStr) : Bool :=
  pySubstr "bit_depth".toList fs || pySubstr "sampling_rate".toList fs

/-- One loop iteration of `downloader._clean_format_str` (index `i` is 0 for
the folder template, 1 for the track template). -/
def clean_format_str_one (file_format : PyStr) (i : Nat) (fs : PyStr) : PyStr :=
  let fs := pyStrip isPySpace (dropAudioExt fs)
  if (file_format = "MP3".toList || file_format = "Unknown".toList) &&
      mentionsBitDepthOrSamplingRate fs then
    (DEFAULT_FORMATS file_format).getD i []
  else fs

/-- `downloader._clean_format_str(folder, track, file_format)`. -/
def clean_format_str (folder track file_format : PyStr) : PyStr × PyStr :=
  (clean_format_str_one file_format 0 folder,
   clean_format_str_one file_format 1 track)

/-! ### `downloader.process_folder_format_with_subdirs` -/

/-- The per-part body of `process_folder_format_with_subdirs`: render the
part, sanitize it; a `KeyError` (missing field) is caught and the original
part text is sanitized and used instead; a `ValueError` escapes. -/
def processPart (ext : Externals) (attr : AttrMap) (part : PyStr) :
    Except PyFmtErr PyStr :=
  match pyFormat attr part with
  | .ok formatted => .ok (ext.sanitize_filepath (clean_filename ext formatted))
  | .error .keyError => .ok (ext.sanitize_filepath (clean_filename ext part))
  | .error .valueError => .error .valueError

/-- The accumulation loop over path parts in
`process_folder_format_with_subdirs` (an escaping exception aborts it). -/
def processParts (ext : Externals) (attr : AttrMap) :
    List PyStr → Except PyFmtErr (List PyStr)
  | [] => .ok []
  | p :: ps =>
    match processPart ext attr p with
    | .error e => .error e
    | .ok v =>
      match processParts ext attr ps with
      | .error e => .error e
      | .ok vs => .ok (v :: vs)

/-- The tail of `process_folder_format_with_subdirs`: rejoin the cleaned
parts and prepend the base path when both it and the joined result are
truthy. -/
def joinWithBase (cleaned_parts : List PyStr) (path : Option PyStr) : PyStr :=
  let final_path := pyJoinList cleaned_parts
  match path with
  | some p =>
    if !p.isEmpty && !final_path.isEmpty then pyJoin p final_path
    else final_path
  | none => final_path

/-- `downloader.process_folder_format_with_subdirs(folder_format, attr_dict,
path)`: split on `/`, skip empty parts, render+sanitize each part, rejoin,
and prepend the base path when both it and the result are truthy. -/
def process_folder_format_with_subdirs (ext : Externals) (folder_format : PyStr)
    (attr : AttrMap) (path : Option PyStr) : Except PyFmtErr PyStr :=
  match processParts ext attr
      ((splitOnChar '/' folder_format).filter (fun p => !p.isEmpty)) with
  | .error e => .error e
  | .ok cleaned_parts => .ok (joinWithBase cleaned_parts path)

/-! ### `downloader.Download._determine_formats` -/

/-- The per-track inputs that `_determine_formats` consumes: the filename
attribute mapping `_get_filename_attr(track_artist, track_metadata,
album_meta)` and the track's `media_number`.  The claims under verification
quantify over attribute mappings, so the metadata-to-attributes derivation is
taken as input. -/
structure TrackInfo where
  filename_attr : AttrMap
  media_number : Nat
  deriving DecidableEq

/-- The fields of `Download` and `QobuzDLSettings` that `_determine_formats`
and `download_id_by_type` read. -/
structure Config where
  original_folder_format : PyStr
  original_track_format : PyStr
  original_multiple_disc_track_format : PyStr
  /-- `settings.fallback_folder_format`. -/
  fallback_folder_format : PyStr
  /-- `settings.multiple_disc_one_dir`. -/
  multiple_disc_one_dir : Bool
  /-- `settings.multiple_disc_prefix`. -/
  multiple_disc_prefix : PyStr
  deriving DecidableEq

/-- The three mutable naming-scheme fields that `_determine_formats` writes
(`self.folder_format`, `self.track_format`,
`self.settings.multiple_disc_track_format`). -/
structure ResolverState where
  folder_format : PyStr
  track_format : PyStr
  multiple_disc_track_format : PyStr
  deriving DecidableEq

/-- Python `f"\x7bn:02\x7d"`: decimal rendering zero-padded to width 2. -/
def pad02 (n : Nat) : PyStr :=
  let d := Nat.toDigits 10 n
  if d.length < 2 then '0' :: d else d

/-- `".flac" if file_format.lower() == "flac" else ".mp3"`. -/
def audioExtension (file_format : PyStr) : PyStr :=
  if pyLower file_format = "flac".toList then ".flac".toList else ".mp3".toList

/-- The per-track body of the candidate-evaluation loop in
`_determine_formats`: pick the disc-aware directory and template, render and
sanitize the track filename, and join everything (extension included) into
the full candidate path.  Rendering exceptions propagate to the caller's
`except (KeyError, ValueError)`. -/
def track_final_path (ext : Externals) (cfg : Config) (is_multiple : Bool)
    (root_dir : PyStr) (track_fmt multi_disc_fmt : PyStr) (tr : TrackInfo)
    (extension : PyStr) : Except PyFmtErr PyStr :=
  if is_multiple && cfg.multiple_disc_one_dir then
    match pyFormat tr.filename_attr multi_disc_fmt with
    | .error e => .error e
    | .ok s =>
      .ok (pyJoin root_dir (ext.sanitize_filename (clean_filename ext s) ++ extension))
  else
    let curr_root_dir :=
      if is_multiple && !cfg.multiple_disc_one_dir then
        pyJoin root_dir (cfg.multiple_disc_prefix ++ ' ' :: pad02 tr.media_number)
      else root_dir
    match pyFormat tr.filename_attr track_fmt with
    | .error e => .error e
    | .ok s =>
      .ok (pyJoin curr_root_dir
        (ext.sanitize_filename (clean_filename ext s) ++ extension))

/-- One iteration of the candidate loop in `_determine_formats`: the
combination is valid when the folder template renders (a `ValueError` from a
part, or any track-template `KeyError`/`ValueError`, invalidates it) and
every track's full candidate path is within `OK_MAX_CHARACTER_LENGTH`.
`folder_attr` is `track_attr` in track mode and `album_attr` in release
mode. -/
def candidate_valid (ext : Externals) (cfg : Config) (folder_attr : AttrMap)
    (tracks : List TrackInfo) (is_multiple : Bool) (file_format : PyStr)
    (combo : PyStr × PyStr × PyStr) : Bool :=
  let cleaned := clean_format_str combo.1 combo.2.1 file_format
  match process_folder_format_with_subdirs ext cleaned.1 folder_attr none with
  | .error _ => false
  | .ok root_dir =>
    tracks.all fun tr =>
      match track_final_path ext cfg is_multiple root_dir cleaned.2 combo.2.2 tr
          (audioExtension file_format) with
      | .error _ => false
      | .ok p => decide (p.length ≤ OK_MAX_CHARACTER_LENGTH)

/-- The fixed priority-ordered candidate list `format_combinations` built at
the top of `_determine_formats`. -/
def format_combinations (cfg : Config) : List (PyStr × PyStr × PyStr) :=
  [(cfg.original_folder_format, cfg.original_track_format,
    cfg.original_multiple_disc_track_format),
   (cfg.fallback_folder_format, cfg.original_track_format,
    cfg.original_multiple_disc_track_format),
   (cfg.fallback_folder_format, DEFAULT_TRACK, DEFAULT_MULTIPLE_DISC_TRACK),
   (DEFAULT_FOLDER, DEFAULT_TRACK, DEFAULT_MULTIPLE_DISC_TRACK)]

/-- `Download._determine_formats`: try the combinations in order and adopt
the first valid one (storing the `_clean_format_str`-cleaned folder/track
templates and the raw multi-disc template); when none validates, fall back
unconditionally to the raw default scheme with a warning. -/
def determine_formats (ext : Externals) (cfg : Config) (folder_attr : AttrMap)
    (tracks : List TrackInfo) (is_multiple : Bool) (file_format : PyStr) :
    ResolverState :=
  match (format_combinations cfg).find?
      (candidate_valid ext cfg folder_attr tracks is_multiple file_format) with
  | some combo =>
    let cleaned := clean_format_str combo.1 combo.2.1 file_format
    ⟨cleaned.1, cleaned.2, combo.2.2⟩
  | none => ⟨DEFAULT_FOLDER, DEFAULT_TRACK, DEFAULT_MULTIPLE_DISC_TRACK⟩

/-- The reset performed at the top of `Download.download_id_by_type` before
each item: the naming-scheme state is restored to the originals saved in
`__init__`, discarding whatever a previous item's `_determine_formats`
adopted. -/
def download_id_by_type_reset (cfg : Config) (_st : ResolverState) :
    ResolverState :=
  ⟨cfg.original_folder_format, cfg.original_track_format,
   cfg.original_multiple_disc_track_format⟩

/-! ### Statement helpers and concrete fixtures for the resolver claims -/

/-- Claim-statement helper (mirrors the spec's phrase "the candidate produces
some over-budget path"): the candidate's folder template renders, and some
track's fully computed candidate path exceeds the budget. -/
def candidate_has_over_budget_path (ext : Externals) (cfg : Config)
    (folder_attr : AttrMap) (tracks : List TrackInfo) (is_multiple : Bool)
    (file_format : PyStr) (combo : PyStr × PyStr × PyStr) : Bool :=
  let cleaned := clean_format_str combo.1 combo.2.1 file_format
  match process_folder_format_with_subdirs ext cleaned.1 folder_attr none with
  | .error _ => false
  | .ok root_dir =>
    tracks.any fun tr =>
      match track_final_path ext cfg is_multiple root_dir cleaned.2 combo.2.2 tr
          (audioExtension file_format) with
      | .error _ => false
      | .ok p => decide (p.length > OK_MAX_CHARACTER_LENGTH)

/-- Fixture for claim C1: a ten-character literal folder template and a
single-field track template. -/
def c1_cfg : Config :=
  ⟨List.replicate 10 'F', "{t}".toList, "{t}".toList, "FB".toList, false,
   "CD".toList⟩

/-- The first (original-formats) candidate of `c1_cfg`. -/
def c1_combo : PyStr × PyStr × PyStr :=
  (List.replicate 10 'F', "{t}".toList, "{t}".toList)

/-- A track whose rendered filename is `n` copies of `a`; the full candidate
path `FFFFFFFFFF/aa…a.flac` then has length `n + 16`. -/
def c1_track (n : Nat) : TrackInfo := ⟨[("t".toList, List.replicate n 'a')], 1⟩

/-- A 170-character base output directory (`Download.path`). -/
def c1_base : PyStr := List.replicate 170 'p'

/-- Fixture for claim C2: the original and fallback folder templates are 200-
and 190-character literals (over budget with any track), while the built-in
default scheme stays far under budget. -/
def c2_cfg : Config :=
  ⟨List.replicate 200 'x', "T".toList, "T".toList, List.replicate 190 'y',
   false, "CD".toList⟩

/-- Album attributes rendering `DEFAULT_FOLDER` to the 22-character
`A - B (2020) [FLAC 16]`. -/
def c2_attr : AttrMap :=
  [("album_artist".toList, "A".toList), ("album_title".toList, "B".toList),
   ("year".toList, "2020".toList), ("format".toList, "FLAC".toList),
   ("bit_depth".toList, "16".toList)]

/-- A track rendering `DEFAULT_TRACK` to the six-character `01 - T`. -/
def c2_track : TrackInfo :=
  ⟨[("track_number".toList, "01".toList),
    ("track_title_base".toList, "T".toList)], 1⟩

/-- Fixture for the C3 counterexample: the user folder template references a
field absent from every attribute mapping used. -/
def c3_cfg : Config :=
  ⟨"{missing}".toList, "T".toList, "T".toList, "FB".toList, false, "CD".toList⟩

/-- A track with an empty attribute mapping. -/
def c3_track : TrackInfo := ⟨[], 1⟩

/-- Fixture for the C3 witness, part one: the original track template
references a missing field. -/
def c3w_cfg : Config :=
  ⟨"F".toList, "{missing}".toList, "T".toList, "FB".toList, false, "CD".toList⟩

/-- Fixture for the C3 witness, part two: the first candidate is invalid
(200-character folder), the second (fallback folder `FB`) is valid. -/
def c3x_cfg : Config :=
  ⟨List.replicate 200 'x', "T".toList, "T".toList, "FB".toList, false,
   "CD".toList⟩

/-! ### `qobuz_dl/db.py` — the dedup ledger -/

/-- One row of the `downloads` table (schema declared in `db.create_db`). -/
structure DownloadRow where
  id : PyStr
  media_type : PyStr
  quality : Int
  file_format : PyStr
  quality_met : Bool
  bit_depth : Option PyStr
  sampling_rate : Option PyStr
  saved_path : PyStr
  status : PyStr
  url : PyStr
  release_date : PyStr
  deriving DecidableEq

/-- The persisted `downloads` table. -/
abbrev DownloadDb := List DownloadRow

/-- The key predicate of `PRIMARY KEY ("id", "quality")`. -/
def sameKey (a b : DownloadRow) : Bool :=
  a.id == b.id && a.quality == b.quality

/-- sqlite's `INSERT` under the declared primary key: it fails with an
`sqlite3.IntegrityError` (a subclass of `sqlite3.Error`) when a row with the
same `(id, quality)` key already exists, and otherwise appends the row. -/
def insertRow (t : DownloadDb) (row : DownloadRow) : Option DownloadDb :=
  if t.any (fun r => sameKey r row) then none
  else some (t ++ [row])

/-- `db.handle_download_id(db_path, item_id, add_id, …)`.  A falsy `db_path`
returns immediately (modelled as `none`).  With `add_id=True` the row is
inserted and any `sqlite3.Error` is caught and logged — the caller always
gets the table state back, unchanged when the insert failed.  With
`add_id=False` it returns `fetchone` of
`SELECT id FROM downloads WHERE id=? AND quality=?`. -/
def handle_download_id (db : Option DownloadDb) (row : DownloadRow)
    (add_id : Bool) : Option DownloadDb × Option PyStr :=
  match db with
  | none => (none, none)
  | some t =>
    if add_id then
      match insertRow t row with
      | some t2 => (some t2, none)
      | none => (some t, none)
    else (some t, (t.find? (fun r => sameKey r row)).map (·.id))

/-! ### Title rendering (`downloader._get_title` and
`metadata._get_title_with_version`) -/

/-- `downloader._get_title(item_dict)`: when the version field is truthy,
append ` (version)` unless the version is already a case-insensitive
substring of the title. -/
def downloader_get_title (title : PyStr) (version : Option PyStr) : PyStr :=
  match version with
  | none => title
  | some v =>
    if !v.isEmpty then
      if !pySubstr (pyLower v) (pyLower title) then
        title ++ " (".toList ++ v ++ ")".toList
      else title
    else title

/-- `metadata._get_title_with_version(title, version)` — the function the Tag
Mapper (`metadata._get_tags_to_add`) uses for the ALBUM and TITLE tags: it
appends ` (version)` unconditionally whenever the version is truthy. -/
def get_title_with_version (title version : PyStr) : PyStr :=
  if !version.isEmpty then title ++ " (".toList ++ version ++ ")".toList
  else title

/-! ### `Download.download_release` orchestration skeleton (claim C9) -/

/-- The outcome of one dispatched `_download_and_tag` job.  Every outcome
completes the job's Future: a missing URL or an existing final file returns
early, a tagging exception is caught inside the job (the
`try/except` around `tag_function`), and an uncaught transfer error is
captured by the executor inside the Future (`concurrent.futures.wait` never
re-raises). -/
inductive TrackOutcome where
  | ok
  | missingUrl
  | alreadyDownloaded
  | tagError
  | transferError
  deriving DecidableEq

/-- The main-thread events of `download_release` from fan-out onwards. -/
inductive OrchEvent where
  /-- `executor.submit(self._download_and_tag, …)` for track `i`. -/
  | submit (i : Nat)
  /-- "Demo. Skipping" for track `i`: no Future is dispatched. -/
  | skipDemo (i : Nat)
  /-- `concurrent.futures.wait(futures)` over the dispatched Futures. -/
  | waitAll (dispatched : List Nat)
  /-- `_clean_embed_art(dirn, settings)`. -/
  | cleanEmbedArt
  /-- `handle_download_id(…, add_id=True, …)` for the release. -/
  | recordLedger
  deriving DecidableEq

/-- The dispatch loop over `album_meta["tracks"]["items"]`: track `i` is
submitted when `"sample" not in parse and parse["sampling_rate"]` held for
it, and skipped as a demo otherwise. -/
def dispatchEvents (streamable : List Bool) : List OrchEvent :=
  streamable.enum.map fun p => if p.2 then .submit p.1 else .skipDemo p.1

/-- The indices whose Futures are in the `futures` list passed to
`concurrent.futures.wait`. -/
def dispatchedIndices (streamable : List Bool) : List Nat :=
  (streamable.enum.filter (fun p => p.2)).map (fun p => p.1)

/-- The ordered main-thread event trace of `download_release` after the
quality gate, translated from the statement order of the source: the
dispatch loop, then the single `concurrent.futures.wait` barrier, then
`_clean_embed_art`, then the release's `handle_download_id`.  The per-track
outcomes are taken as an arbitrary assignment because the main thread never
reads the Futures' results. -/
def download_release_trace (streamable : List Bool)
    (_outcomes : Nat → TrackOutcome) : List OrchEvent :=
  dispatchEvents streamable ++
    [.waitAll (dispatchedIndices streamable), .cleanEmbedArt, .recordLedger]

/-! ### `Download._download_and_tag` final-path computation (claim C10) -/

/-- The final-file computation of `_download_and_tag`: adjust the root
directory for a separate-directory disc, render the configured track
template (the multi-disc one when discs share a directory), sanitize, join
with the directory, truncate the joined string to 250 characters
(`[:250]`), and append the audio extension. -/
def download_and_tag_final_file (ext : Externals) (cfg : Config)
    (st : ResolverState) (root_dir : PyStr) (filename_attr : AttrMap)
    (multiple : Option Nat) (is_mp3 : Bool) : Except PyFmtErr PyStr :=
  let extension := if is_mp3 then ".mp3".toList else ".flac".toList
  let isMult : Bool := match multiple with
    | none => false
    | some m => decide (m ≠ 0)
  let dir :=
    if isMult && !cfg.multiple_disc_one_dir then
      pyJoin root_dir (cfg.multiple_disc_prefix ++ ' ' :: pad02 (multiple.getD 0))
    else root_dir
  match (if isMult && cfg.multiple_disc_one_dir then
      pyFormat filename_attr st.multiple_disc_track_format
    else pyFormat filename_attr st.track_format) with
  | .error e => .error e
  | .ok s =>
    .ok ((pyJoin dir (ext.sanitize_filename (clean_filename ext s))).take 250
      ++ extension)

/-- The skip-if-exists check of `_download_and_tag`:
`os.path.isfile(final_file)` evaluated on the computed final path, for an
arbitrary filesystem-existence predicate. -/
def download_and_tag_skips (fsIsFile : PyStr → Bool) (ext : Externals)
    (cfg : Config) (st : ResolverState) (root_dir : PyStr)
    (filename_attr : AttrMap) (multiple : Option Nat) (is_mp3 : Bool) :
    Except PyFmtErr Bool :=
  match download_and_tag_final_file ext cfg st root_dir filename_attr multiple
      is_mp3 with
  | .error e => .error e
  | .ok f => .ok (fsIsFile f)

/-! ### Fixtures for the remaining witnesses -/

/-- A concrete ledger row. -/
def c5_row : DownloadRow :=
  ⟨"id1".toList, "album".toList, 27, "FLAC".toList, true, some "16".toList,
   some "44.1".toList, "p".toList, "downloaded".toList, "u".toList,
   "2020-01-01".toList⟩

/-- Resolver state for the C10 witness. -/
def c10_st : ResolverState := ⟨"F".toList, "{t}".toList, "M".toList⟩

/-- Attribute mapping for the C10 witness. -/
def c10_attr : AttrMap := [("t".toList, "X".toList)]

/-! ## Theorems -/

theorem invalid_chars_to_fullwidth_eq_map (s : PyStr) :
    invalid_chars_to_fullwidth s = s.map toSafeChar := by
  simp only [invalid_chars_to_fullwidth, invalid_to_fullwidth, pyReplaceChar,
    List.foldl, List.map_map]
  apply List.map_congr_left
  intro c _
  by_cases h1 : c = '/'
  · subst h1; decide
  by_cases h2 : c = '\\'
  · subst h2; decide
  by_cases h3 : c = ':'
  · subst h3; decide
  by_cases h4 : c = '*'
  · subst h4; decide
  by_cases h5 : c = '?'
  · subst h5; decide
  by_cases h6 : c = '"'
  · subst h6; decide
  by_cases h7 : c = '<'
  · subst h7; decide
  by_cases h8 : c = '>'
  · subst h8; decide
  by_cases h9 : c = '|'
  · subst h9; decide
  simp [Function.comp, toSafeChar, h1, h2, h3, h4, h5, h6, h7, h8, h9]

theorem toSafeChar_not_invalid (c : Char) :
    invalidChars.contains (toSafeChar c) = false := by
  by_cases h1 : c = '/'
  · subst h1; decide
  by_cases h2 : c = '\\'
  · subst h2; decide
  by_cases h3 : c = ':'
  · subst h3; decide
  by_cases h4 : c = '*'
  · subst h4; decide
  by_cases h5 : c = '?'
  · subst h5; decide
  by_cases h6 : c = '"'
  · subst h6; decide
  by_cases h7 : c = '<'
  · subst h7; decide
  by_cases h8 : c = '>'
  · subst h8; decide
  by_cases h9 : c = '|'
  · subst h9; decide
  have hc : toSafeChar c = c := by
    simp [toSafeChar, h1, h2, h3, h4, h5, h6, h7, h8, h9]
  rw [hc]
  simp [invalidChars, h1, h2, h3, h4, h5, h6, h7, h8, h9]

theorem toSafeChar_fixes_safe (c : Char)
    (h : invalidChars.contains c = false) : toSafeChar c = c := by
  simp only [invalidChars] at h
  simp at h
  obtain ⟨h1, h2, h3, h4, h5, h6, h7, h8, h9⟩ := h
  simp [toSafeChar, h1, h2, h3, h4, h5, h6, h7, h8, h9]

/-- Claim C7: for every input string, the output of the sanitizer pipeline
(`clean_filename`, i.e. normalization followed by full-width mapping of
illegal characters) contains none of the characters `/ \ : * ? " < > |`. -/
theorem claim_C7 (ext : Externals) (s : PyStr) :
    (clean_filename ext s).all (fun c => !(invalidChars.contains c)) = true := by
  unfold clean_filename
  rw [invalid_chars_to_fullwidth_eq_map, List.all_map]
  rw [List.all_eq_true]
  intro c _
  simp only [Function.comp]
  rw [toSafeChar_not_invalid]
  rfl

/-- Claim C8: the illegal-character mapping `invalid_chars_to_fullwidth` is
idempotent: applying it twice gives the same result as applying it once, for
every string (in particular for strings containing illegal characters). -/
theorem claim_C8 (s : PyStr) :
    invalid_chars_to_fullwidth (invalid_chars_to_fullwidth s) =
      invalid_chars_to_fullwidth s := by
  simp only [invalid_chars_to_fullwidth_eq_map, List.map_map]
  apply List.map_congr_left
  intro c _
  simp only [Function.comp]
  exact toSafeChar_fixes_safe _ (toSafeChar_not_invalid c)

/-- Claim C1 (corrected): a candidate naming scheme is accepted by the
resolver iff its folder template renders and, for every track in scope, the
fully joined candidate path — folder segments plus track filename plus the
audio extension, WITHOUT the base output path, which the source's length
check never includes — has length at most `OK_MAX_CHARACTER_LENGTH = 180`;
a path of exactly 180 characters is accepted (`c1_track 164` gives a
180-character path) and one of 181 characters (`c1_track 165`) is
rejected. -/
theorem claim_C1_amended :
    (∀ (ext : Externals) (cfg : Config) (folder_attr : AttrMap)
        (tracks : List TrackInfo) (is_multiple : Bool) (file_format : PyStr)
        (combo : PyStr × PyStr × PyStr),
      candidate_valid ext cfg folder_attr tracks is_multiple file_format combo
          = true ↔
        ∃ root_dir,
          process_folder_format_with_subdirs ext
              (clean_format_str combo.1 combo.2.1 file_format).1 folder_attr
              none = .ok root_dir ∧
          ∀ tr ∈ tracks, ∃ p,
            track_final_path ext cfg is_multiple root_dir
                (clean_format_str combo.1 combo.2.1 file_format).2 combo.2.2 tr
                (audioExtension file_format) = .ok p ∧
            p.length ≤ OK_MAX_CHARACTER_LENGTH) ∧
    candidate_valid idExternals c1_cfg [] [c1_track 164] false "FLAC".toList
      c1_combo = true ∧
    candidate_valid idExternals c1_cfg [] [c1_track 165] false "FLAC".toList
      c1_combo = false := by
  refine ⟨?_, by decide, by decide⟩
  intro ext cfg fa tracks im ff combo
  simp only [candidate_valid]
  cases hp : process_folder_format_with_subdirs ext
      (clean_format_str combo.1 combo.2.1 ff).1 fa none with
  | error e => simp
  | ok rd =>
    constructor
    · intro h
      refine ⟨rd, rfl, ?_⟩
      intro tr htr
      have h2 := (List.all_eq_true.mp h) tr htr
      cases ht : track_final_path ext cfg im rd
          (clean_format_str combo.1 combo.2.1 ff).2 combo.2.2 tr
          (audioExtension ff) with
      | error e => rw [ht] at h2; simp at h2
      | ok p =>
        rw [ht] at h2
        exact ⟨p, rfl, of_decide_eq_true h2⟩
    · rintro ⟨rd2, hrd, hall⟩
      injection hrd with h'
      subst h'
      apply List.all_eq_true.mpr
      intro tr htr
      obtain ⟨p, hp2, hlen⟩ := hall tr htr
      rw [hp2]
      exact decide_eq_true hlen

/-- Claim C1, counterexample to the claim as stated: the resolver accepts
this candidate (every track path is within budget by the source's measure),
yet the fully joined path INCLUDING the base output path — the quantity the
claim says must be at most 180 — has length 351: acceptance does not imply
the base-path-inclusive bound. -/
theorem claim_C1_counterexample :
    candidate_valid idExternals c1_cfg [] [c1_track 164] false "FLAC".toList
      c1_combo = true ∧
    process_folder_format_with_subdirs idExternals c1_combo.1 []
      (some c1_base) = .ok (pyJoin c1_base (List.replicate 10 'F')) ∧
    track_final_path idExternals c1_cfg false
      (pyJoin c1_base (List.replicate 10 'F')) "{t}".toList "{t}".toList
      (c1_track 164) ".flac".toList
      = .ok (pyJoin (pyJoin c1_base (List.replicate 10 'F'))
          (List.replicate 164 'a' ++ ".flac".toList)) ∧
    OK_MAX_CHARACTER_LENGTH <
      (pyJoin (pyJoin c1_base (List.replicate 10 'F'))
        (List.replicate 164 'a' ++ ".flac".toList)).length :=
  ⟨by decide, by decide, by decide, by decide⟩

theorem candidate_valid_eq_false_of_over_budget (ext : Externals) (cfg : Config)
    (fa : AttrMap) (tracks : List TrackInfo) (im : Bool) (ff : PyStr)
    (combo : PyStr × PyStr × PyStr)
    (h : candidate_has_over_budget_path ext cfg fa tracks im ff combo = true) :
    candidate_valid ext cfg fa tracks im ff combo = false := by
  simp only [candidate_has_over_budget_path] at h
  cases hp : process_folder_format_with_subdirs ext
      (clean_format_str combo.1 combo.2.1 ff).1 fa none with
  | error e => simp only [candidate_valid, hp]
  | ok rd =>
    rw [hp] at h
    simp only [candidate_valid, hp]
    rw [List.all_eq_false]
    obtain ⟨tr, htr, hbad⟩ := List.any_eq_true.mp h
    refine ⟨tr, htr, ?_⟩
    cases ht : track_final_path ext cfg im rd
        (clean_format_str combo.1 combo.2.1 ff).2 combo.2.2 tr
        (audioExtension ff) with
    | error e => rw [ht] at hbad; simp at hbad
    | ok p =>
      rw [ht] at hbad
      have hgt := of_decide_eq_true hbad
      simp only [ht]
      simp
      omega

/-- Claim C2: the resolver tries the candidate combinations in their fixed
priority order and adopts the first fully valid one; whenever each of the
three earlier candidates produces some over-budget path and the last
(default) candidate is fully valid, it selects exactly the last candidate —
and the adopted choice is local to the current item, since
`download_id_by_type` resets the naming-scheme state to the saved originals
before each subsequent item. -/
theorem claim_C2 (ext : Externals) (cfg : Config) (fa : AttrMap)
    (tracks : List TrackInfo) (im : Bool) (ff : PyStr)
    (h1 : ∀ combo ∈ (format_combinations cfg).take 3,
        candidate_has_over_budget_path ext cfg fa tracks im ff combo = true)
    (h2 : candidate_valid ext cfg fa tracks im ff
        (DEFAULT_FOLDER, DEFAULT_TRACK, DEFAULT_MULTIPLE_DISC_TRACK) = true) :
    determine_formats ext cfg fa tracks im ff =
      ⟨(clean_format_str DEFAULT_FOLDER DEFAULT_TRACK ff).1,
       (clean_format_str DEFAULT_FOLDER DEFAULT_TRACK ff).2,
       DEFAULT_MULTIPLE_DISC_TRACK⟩ ∧
    ∀ st : ResolverState, download_id_by_type_reset cfg st =
      ⟨cfg.original_folder_format, cfg.original_track_format,
       cfg.original_multiple_disc_track_format⟩ := by
  have m1 : (cfg.original_folder_format, cfg.original_track_format,
      cfg.original_multiple_disc_track_format) ∈
      (format_combinations cfg).take 3 := by simp [format_combinations]
  have m2 : (cfg.fallback_folder_format, cfg.original_track_format,
      cfg.original_multiple_disc_track_format) ∈
      (format_combinations cfg).take 3 := by simp [format_combinations]
  have m3 : (cfg.fallback_folder_format, DEFAULT_TRACK,
      DEFAULT_MULTIPLE_DISC_TRACK) ∈
      (format_combinations cfg).take 3 := by simp [format_combinations]
  have i1 := candidate_valid_eq_false_of_over_budget ext cfg fa tracks im ff _
    (h1 _ m1)
  have i2 := candidate_valid_eq_false_of_over_budget ext cfg fa tracks im ff _
    (h1 _ m2)
  have i3 := candidate_valid_eq_false_of_over_budget ext cfg fa tracks im ff _
    (h1 _ m3)
  refine ⟨?_, fun st => rfl⟩
  simp [determine_formats, format_combinations, List.find?, i1, i2, i3, h2]

/-- Claim C2 witness: with `c2_cfg`, every earlier candidate's path is over
budget and the default candidate is valid, so the resolver adopts the default
scheme, and the next item starts from the saved originals again. -/
theorem claim_C2_witness :
    determine_formats idExternals c2_cfg c2_attr [c2_track] false
      "FLAC".toList =
      ⟨(clean_format_str DEFAULT_FOLDER DEFAULT_TRACK "FLAC".toList).1,
       (clean_format_str DEFAULT_FOLDER DEFAULT_TRACK "FLAC".toList).2,
       DEFAULT_MULTIPLE_DISC_TRACK⟩ ∧
    ∀ st : ResolverState, download_id_by_type_reset c2_cfg st =
      ⟨c2_cfg.original_folder_format, c2_cfg.original_track_format,
       c2_cfg.original_multiple_disc_track_format⟩ :=
  claim_C2 idExternals c2_cfg c2_attr [c2_track] false "FLAC".toList
    (by decide) (by decide)

theorem processPart_ne_keyError (ext : Externals) (attr : AttrMap)
    (part : PyStr) : processPart ext attr part ≠ .error .keyError := by
  simp only [processPart]
  cases h : pyFormat attr part with
  | ok v => simp
  | error e => cases e <;> simp

theorem processParts_ne_keyError (ext : Externals) (attr : AttrMap) :
    ∀ parts, processParts ext attr parts ≠ .error .keyError := by
  intro parts
  induction parts with
  | nil => simp [processParts]
  | cons p ps ih =>
    simp only [processParts]
    cases h : processPart ext attr p with
    | error e =>
      have hne := processPart_ne_keyError ext attr p
      rw [h] at hne
      cases e
      · exact absurd rfl hne
      · simp
    | ok v =>
      cases h2 : processParts ext attr ps with
      | error e =>
        rw [h2] at ih
        cases e
        · exact absurd rfl ih
        · simp
      | ok vs => simp

/-- Claim C3 (corrected): during candidate evaluation no exception escapes to
the caller, and the two templates behave differently on a missing field.
(1) A missing-field `KeyError` in the FOLDER template never escapes folder
processing — the offending segment falls back to its literal template text,
so the candidate is NOT rejected for it.  (2) A missing-field `KeyError`
raised while rendering the TRACK template invalidates exactly that
candidate.  (3) An invalid first candidate only ends that candidate: when the
second candidate is fully valid, the resolver adopts it. -/
theorem claim_C3_amended :
    (∀ (ext : Externals) (fmt : PyStr) (attr : AttrMap) (path : Option PyStr),
      process_folder_format_with_subdirs ext fmt attr path
        ≠ .error .keyError) ∧
    (∀ (ext : Externals) (cfg : Config) (fa : AttrMap)
        (tracks : List TrackInfo) (im : Bool) (ff : PyStr)
        (combo : PyStr × PyStr × PyStr) (root_dir : PyStr) (tr : TrackInfo),
      process_folder_format_with_subdirs ext
          (clean_format_str combo.1 combo.2.1 ff).1 fa none = .ok root_dir →
      tr ∈ tracks →
      track_final_path ext cfg im root_dir
          (clean_format_str combo.1 combo.2.1 ff).2 combo.2.2 tr
          (audioExtension ff) = .error .keyError →
      candidate_valid ext cfg fa tracks im ff combo = false) ∧
    (∀ (ext : Externals) (cfg : Config) (fa : AttrMap)
        (tracks : List TrackInfo) (im : Bool) (ff : PyStr),
      candidate_valid ext cfg fa tracks im ff
          (cfg.original_folder_format, cfg.original_track_format,
           cfg.original_multiple_disc_track_format) = false →
      candidate_valid ext cfg fa tracks im ff
          (cfg.fallback_folder_format, cfg.original_track_format,
           cfg.original_multiple_disc_track_format) = true →
      determine_formats ext cfg fa tracks im ff =
        ⟨(clean_format_str cfg.fallback_folder_format
            cfg.original_track_format ff).1,
         (clean_format_str cfg.fallback_folder_format
            cfg.original_track_format ff).2,
         cfg.original_multiple_disc_track_format⟩) := by
  refine ⟨?_, ?_, ?_⟩
  · intro ext fmt attr path
    simp only [process_folder_format_with_subdirs]
    cases h : processParts ext attr
        ((splitOnChar '/' fmt).filter (fun p => !p.isEmpty)) with
    | error e =>
      have hne := processParts_ne_keyError ext attr
        ((splitOnChar '/' fmt).filter (fun p => !p.isEmpty))
      rw [h] at hne
      cases e
      · exact absurd rfl hne
      · simp
    | ok v => simp
  · intro ext cfg fa tracks im ff combo root_dir tr hroot htr hbad
    simp only [candidate_valid, hroot]
    cases hall : tracks.all fun tr =>
        match track_final_path ext cfg im root_dir
            (clean_format_str combo.1 combo.2.1 ff).2 combo.2.2 tr
            (audioExtension ff) with
        | .error _ => false
        | .ok p => decide (p.length ≤ OK_MAX_CHARACTER_LENGTH) with
    | false => rfl
    | true =>
      exfalso
      have h3 := (List.all_eq_true.mp hall) tr htr
      rw [hbad] at h3
      simp at h3
  · intro ext cfg fa tracks im ff hc1 hc2
    simp [determine_formats, format_combinations, List.find?, hc1, hc2]

/-- Claim C3 witness: (part 2) a candidate whose TRACK template references a
field absent from the track's attribute mapping is invalid; (part 3) when
the first candidate is invalid and the second is valid, the resolver adopts
the second candidate's formats. -/
theorem claim_C3_amended_witness :
    candidate_valid idExternals c3w_cfg [] [c3_track] false "FLAC".toList
      ("F".toList, "{missing}".toList, "T".toList) = false ∧
    determine_formats idExternals c3x_cfg [] [c3_track] false "FLAC".toList =
      ⟨(clean_format_str c3x_cfg.fallback_folder_format
          c3x_cfg.original_track_format "FLAC".toList).1,
       (clean_format_str c3x_cfg.fallback_folder_format
          c3x_cfg.original_track_format "FLAC".toList).2,
       c3x_cfg.original_multiple_disc_track_format⟩ :=
  ⟨claim_C3_amended.2.1 idExternals c3w_cfg [] [c3_track] false "FLAC".toList
      ("F".toList, "{missing}".toList, "T".toList) "F".toList c3_track
      (by decide) (by decide) (by decide),
   claim_C3_amended.2.2 idExternals c3x_cfg [] [c3_track] false "FLAC".toList
      (by decide) (by decide)⟩

/-- Claim C3, counterexample to the claim as stated: the first candidate's
FOLDER template consists of one field that is absent from the attribute
mapping (rendering it raises `KeyError`), yet the resolver does NOT move on
to the next candidate — it adopts the first candidate, keeping the
unrenderable `\x7bmissing\x7d` text as the folder name. -/
theorem claim_C3_counterexample :
    pyFormat [] "{missing}".toList = .error .keyError ∧
    determine_formats idExternals c3_cfg [] [c3_track] false "FLAC".toList =
      ⟨"{missing}".toList, "T".toList, "T".toList⟩ ∧
    ("{missing}".toList : PyStr) ≠ c3_cfg.fallback_folder_format :=
  ⟨by decide, by decide, by decide⟩

/-- Claim C4: when the resolved container format is MP3 or Unknown and the
(extension/whitespace-trimmed) template mentions the bit-depth or
sampling-rate field, `_clean_format_str` replaces the template with the
fixed format-specific default; templates not mentioning those fields, and
all templates when the format is FLAC, pass through unchanged apart from the
extension/whitespace trimming. -/
theorem claim_C4 (folder track file_format : PyStr) :
    ((file_format = "MP3".toList ∨ file_format = "Unknown".toList) →
      mentionsBitDepthOrSamplingRate (pyStrip isPySpace (dropAudioExt folder))
          = true →
      (clean_format_str folder track file_format).1 =
        (DEFAULT_FORMATS file_format).getD 0 []) ∧
    ((file_format = "MP3".toList ∨ file_format = "Unknown".toList) →
      mentionsBitDepthOrSamplingRate (pyStrip isPySpace (dropAudioExt track))
          = true →
      (clean_format_str folder track file_format).2 =
        (DEFAULT_FORMATS file_format).getD 1 []) ∧
    (mentionsBitDepthOrSamplingRate (pyStrip isPySpace (dropAudioExt folder))
        = false →
      (clean_format_str folder track file_format).1 =
        pyStrip isPySpace (dropAudioExt folder)) ∧
    (mentionsBitDepthOrSamplingRate (pyStrip isPySpace (dropAudioExt track))
        = false →
      (clean_format_str folder track file_format).2 =
        pyStrip isPySpace (dropAudioExt track)) ∧
    (file_format = "FLAC".toList →
      clean_format_str folder track file_format =
        (pyStrip isPySpace (dropAudioExt folder),
         pyStrip isPySpace (dropAudioExt track))) := by
  refine ⟨?_, ?_, ?_, ?_, ?_⟩
  · intro hf hm
    have hcond : ((file_format = "MP3".toList ||
        file_format = "Unknown".toList) &&
        mentionsBitDepthOrSamplingRate
          (pyStrip isPySpace (dropAudioExt folder))) = true := by
      rcases hf with hf | hf <;> simp [hf, hm]
    simp only [clean_format_str, clean_format_str_one]
    rw [hcond]
    simp
  · intro hf hm
    have hcond : ((file_format = "MP3".toList ||
        file_format = "Unknown".toList) &&
        mentionsBitDepthOrSamplingRate
          (pyStrip isPySpace (dropAudioExt track))) = true := by
      rcases hf with hf | hf <;> simp [hf, hm]
    simp only [clean_format_str, clean_format_str_one]
    rw [hcond]
    simp
  · intro hm
    simp [clean_format_str, clean_format_str_one, hm]
  · intro hm
    simp [clean_format_str, clean_format_str_one, hm]
  · intro hf
    simp only [clean_format_str, clean_format_str_one]
    have d1 : ((file_format = "MP3".toList ||
        file_format = "Unknown".toList) &&
        mentionsBitDepthOrSamplingRate
          (pyStrip isPySpace (dropAudioExt folder))) = false := by
      rw [hf]; simp
    have d2 : ((file_format = "MP3".toList ||
        file_format = "Unknown".toList) &&
        mentionsBitDepthOrSamplingRate
          (pyStrip isPySpace (dropAudioExt track))) = false := by
      rw [hf]; simp
    rw [d1, d2]
    simp

/-- Claim C4 witness: an MP3 folder template mentioning `bit_depth` is
replaced by the MP3 default folder template, the track template not
mentioning those fields only gets trimmed, and a FLAC pair passes through
with only extension trimming. -/
theorem claim_C4_witness :
    (clean_format_str "{album_artist} [{bit_depth}]".toList
        "{track_number}".toList "MP3".toList).1
      = (DEFAULT_FORMATS "MP3".toList).getD 0 [] ∧
    (clean_format_str "{album_artist} [{bit_depth}]".toList
        "{track_number}".toList "MP3".toList).2
      = pyStrip isPySpace (dropAudioExt "{track_number}".toList) ∧
    clean_format_str "{x}.flac".toList "{y}".toList "FLAC".toList
      = (pyStrip isPySpace (dropAudioExt "{x}.flac".toList),
         pyStrip isPySpace (dropAudioExt "{y}".toList)) :=
  ⟨(claim_C4 "{album_artist} [{bit_depth}]".toList "{track_number}".toList
      "MP3".toList).1 (Or.inl rfl) (by decide),
   (claim_C4 "{album_artist} [{bit_depth}]".toList "{track_number}".toList
      "MP3".toList).2.2.2.1 (by decide),
   (claim_C4 "{x}.flac".toList "{y}".toList "FLAC".toList).2.2.2.2 rfl⟩

/-- Claim C5: recording a download with a fresh (id, quality) key appends
exactly one row; a second record with the same key violates the primary key,
the storage error is caught inside the ledger operation (the call returns
normally with the table unchanged); and the existence check finds the key
after the first insert. -/
theorem claim_C5 (t : DownloadDb) (row : DownloadRow)
    (h : t.any (fun r => sameKey r row) = false) :
    handle_download_id (some t) row true = (some (t ++ [row]), none) ∧
    ((t ++ [row]).filter (fun r => sameKey r row)).length = 1 ∧
    (handle_download_id (some (t ++ [row])) row false).2 = some row.id ∧
    handle_download_id (some (t ++ [row])) row true
      = (some (t ++ [row]), none) := by
  have hrow : sameKey row row = true := by simp [sameKey]
  have hall := List.any_eq_false.mp h
  refine ⟨?_, ?_, ?_, ?_⟩
  · simp [handle_download_id, insertRow, h]
  · rw [List.filter_append]
    have ht : t.filter (fun r => sameKey r row) = [] :=
      List.filter_eq_nil_iff.mpr hall
    rw [ht]
    simp [hrow]
  · have hf : t.find? (fun r => sameKey r row) = none := by
      rw [List.find?_eq_none]
      intro x hx
      simpa using hall x hx
    simp [handle_download_id, List.find?_append, hf, List.find?, hrow]
  · simp [handle_download_id, insertRow, List.any_append, hrow]

/-- Claim C5 witness: starting from an empty ledger, one record stores the
row, the existence check finds it, and a duplicate record leaves the single
row in place without raising. -/
theorem claim_C5_witness :
    handle_download_id (some []) c5_row true = (some [c5_row], none) ∧
    (([c5_row] : DownloadDb).filter (fun r => sameKey r c5_row)).length = 1 ∧
    (handle_download_id (some [c5_row]) c5_row false).2 = some c5_row.id ∧
    handle_download_id (some [c5_row]) c5_row true = (some [c5_row], none) :=
  claim_C5 [] c5_row (by decide)

/-- Claim C6 (corrected): the downloader's title rendering
(`downloader._get_title`, used for naming attributes) appends the
parenthesized version exactly when the version is truthy and not already a
case-insensitive substring of the title — `Song`/`Remix` renders as
`Song (Remix)` and `Song (Remix)`/`Remix` stays unchanged — but the Tag
Mapper's `_get_title_with_version` (album/track title tags) appends the
version UNCONDITIONALLY whenever it is truthy, with no substring check. -/
theorem claim_C6_amended :
    (∀ (title v : PyStr), v ≠ [] →
      (pySubstr (pyLower v) (pyLower title) = false →
        downloader_get_title title (some v)
          = title ++ " (".toList ++ v ++ ")".toList) ∧
      (pySubstr (pyLower v) (pyLower title) = true →
        downloader_get_title title (some v) = title)) ∧
    downloader_get_title "Song".toList (some "Remix".toList)
      = "Song (Remix)".toList ∧
    downloader_get_title "Song (Remix)".toList (some "Remix".toList)
      = "Song (Remix)".toList ∧
    (∀ (title v : PyStr), v ≠ [] →
      get_title_with_version title v
        = title ++ " (".toList ++ v ++ ")".toList) := by
  refine ⟨?_, by decide, by decide, ?_⟩
  · intro title v hv
    have hne : v.isEmpty = false := by
      cases v with
      | nil => exact absurd rfl hv
      | cons a l => rfl
    constructor
    · intro hsub
      simp [downloader_get_title, hne, hsub]
    · intro hsub
      simp [downloader_get_title, hne, hsub]
  · intro title v hv
    have hne : v.isEmpty = false := by
      cases v with
      | nil => exact absurd rfl hv
      | cons a l => rfl
    simp [get_title_with_version, hne]

/-- Claim C6 witness: a non-substring version is appended, an
already-present version is not (downloader rendering), and the Tag Mapper's
rendering appends whenever the version is nonempty. -/
theorem claim_C6_amended_witness :
    downloader_get_title "Tune".toList (some "Live".toList)
      = "Tune".toList ++ " (".toList ++ "Live".toList ++ ")".toList ∧
    downloader_get_title "Song (Remix)".toList (some "Remix".toList)
      = "Song (Remix)".toList ∧
    get_title_with_version "T".toList "V".toList
      = "T".toList ++ " (".toList ++ "V".toList ++ ")".toList :=
  ⟨(claim_C6_amended.1 "Tune".toList "Live".toList (by decide)).1 (by decide),
   (claim_C6_amended.1 "Song (Remix)".toList "Remix".toList (by decide)).2
     (by decide),
   claim_C6_amended.2.2.2 "T".toList "V".toList (by decide)⟩

/-- Claim C6, counterexample to the claim as stated: at the Tag Mapper's
album/track title tags, the attribute mapping
`title = "Song (Remix)", version = "Remix"` does NOT render unchanged — the
version is appended again, producing `Song (Remix) (Remix)`. -/
theorem claim_C6_counterexample :
    get_title_with_version "Song (Remix)".toList "Remix".toList
      = "Song (Remix) (Remix)".toList ∧
    get_title_with_version "Song (Remix)".toList "Remix".toList
      ≠ "Song (Remix)".toList :=
  ⟨by decide, by decide⟩

/-- Claim C9: in the main-thread trace of a release download, the dispatch
loop (submits and demo-skips only) is followed by the single wait barrier
over exactly the dispatched futures, and only then by the artwork-temp-file
cleanup and the release's ledger record, in that order; the trace — in
particular the barrier, cleanup and record — is independent of the
per-track outcomes, so individually-failing tracks never prevent it. -/
theorem claim_C9 (streamable : List Bool) (outcomes : Nat → TrackOutcome) :
    download_release_trace streamable outcomes =
      dispatchEvents streamable ++
        [.waitAll (dispatchedIndices streamable), .cleanEmbedArt,
         .recordLedger] ∧
    (∀ e ∈ dispatchEvents streamable,
      (∃ i, e = .submit i) ∨ (∃ i, e = .skipDemo i)) ∧
    (∀ outcomes2 : Nat → TrackOutcome,
      download_release_trace streamable outcomes =
        download_release_trace streamable outcomes2) := by
  refine ⟨rfl, ?_, fun _ => rfl⟩
  intro e he
  simp only [dispatchEvents] at he
  obtain ⟨p, hp, rfl⟩ := List.mem_map.mp he
  cases hb : p.2 with
  | false => right; exact ⟨p.1, rfl⟩
  | true => left; exact ⟨p.1, rfl⟩

/-- Claim C10: the final audio path written by `_download_and_tag` is the
joined directory-plus-filename string truncated to at most 250 characters,
with the 4-character `.mp3` or 5-character `.flac` extension appended after
truncation, and the skip-if-exists check is evaluated on exactly this
truncated final path. -/
theorem claim_C10 :
    (∀ (ext : Externals) (cfg : Config) (st : ResolverState)
        (root_dir : PyStr) (attr : AttrMap) (multiple : Option Nat)
        (is_mp3 : Bool) (f : PyStr),
      download_and_tag_final_file ext cfg st root_dir attr multiple is_mp3
          = .ok f →
      ∃ stem, f = stem ++ (if is_mp3 then ".mp3".toList else ".flac".toList) ∧
        stem.length ≤ 250) ∧
    (∀ (fsIsFile : PyStr → Bool) (ext : Externals) (cfg : Config)
        (st : ResolverState) (root_dir : PyStr) (attr : AttrMap)
        (multiple : Option Nat) (is_mp3 : Bool) (f : PyStr),
      download_and_tag_final_file ext cfg st root_dir attr multiple is_mp3
          = .ok f →
      download_and_tag_skips fsIsFile ext cfg st root_dir attr multiple is_mp3
        = .ok (fsIsFile f)) ∧
    (".mp3".toList.length = 4 ∧ ".flac".toList.length = 5) := by
  refine ⟨?_, ?_, by decide⟩
  · intro ext cfg st rd attr multiple is_mp3 f hf
    simp only [download_and_tag_final_file] at hf
    split at hf
    · simp at hf
    · injection hf with hf
      refine ⟨_, hf.symm, ?_⟩
      rw [List.length_take]
      exact Nat.min_le_left _ _
  · intro fsIsFile ext cfg st rd attr multiple is_mp3 f hf
    simp only [download_and_tag_skips, hf]

/-- Claim C10 witness: a concrete final-file computation — `D/X` truncated
(trivially) to 250 characters plus `.flac` — and the skip check evaluated on
that path. -/
theorem claim_C10_witness :
    (∃ stem, ("D/X.flac".toList : PyStr) = stem ++ ".flac".toList ∧
      stem.length ≤ 250) ∧
    download_and_tag_skips (fun _ => false) idExternals c1_cfg c10_st
      "D".toList c10_attr none false = .ok false :=
  ⟨claim_C10.1 idExternals c1_cfg c10_st "D".toList c10_attr none false
      "D/X.flac".toList (by decide),
   claim_C10.2.1 (fun _ => false) idExternals c1_cfg c10_st "D".toList
      c10_attr none false "D/X.flac".toList (by decide)⟩

end QobuzDl
